import Mathlib

/-!
Verification of the DataWiping-Zeroleaks wipe engine
(`src/wipingEngine/wipeEngine.c`) against its specification.

The engine is shallowly embedded: byte counts and offsets are `Nat`,
the platform write/remove/open primitives are an explicit environment
`Env` of oracles, and each operation returns a trace record describing
the I/O it performed (the overwrite passes it ran, the write requests it
issued, whether it flushed, whether it removed the file, and its exit
code).  The POSIX branch of the source is the one modelled; the Windows
branch has the same structure for every fact proved here.
-/

/-- `BUFFER_SIZE` (wipeEngine.c line 33): 256 MB, the length of every
pattern buffer and hence the chunk size of every write request. -/
def BUFFER_SIZE : Nat := 268435456

/-- `MAX_THREADS` (wipeEngine.c line 36): the batch bound of the
recursive folder wiper, 64. -/
def MAX_THREADS : Nat := 64

/-- The five global pattern buffers (`g_zero_buffer`, `g_ff_buffer`,
`g_aa_buffer`, `g_55_buffer`, `g_random_buffer`, lines 65-69). -/
inductive PatternBuf where
  | zero
  | ones
  | aa
  | b55
  | random
  deriving DecidableEq

/-- Byte held at index `i` of a pattern buffer after `init_buffers`
(lines 158-183): the four fixed buffers are memset-filled with
0x00 / 0xFF / 0xAA / 0x55 (the SIMD memset is byte-equivalent to a
plain fill), and the random buffer holds pseudo-random bytes, modelled
by the oracle `rand`. -/
def bufferByte (rand : Nat → Nat) : PatternBuf → Nat → Nat
  | .zero, _ => 0x00
  | .ones, _ => 0xFF
  | .aa, _ => 0xAA
  | .b55, _ => 0x55
  | .random, i => rand i

/-- `get_pattern_buffer` (lines 194-203).  The pattern identifier is the
byte value of the `char` argument; `'R'` is 82.  The `default:` arm of
the switch returns `g_zero_buffer`. -/
def get_pattern_buffer (pat : Nat) : PatternBuf :=
  if pat = 0x00 then .zero
  else if pat = 0xFF then .ones
  else if pat = 0xAA then .aa
  else if pat = 0x55 then .b55
  else if pat = 82 then .random
  else .zero

/-- Environment of platform primitives consumed by the engine.
`writeResult off n` is the byte count the write primitive
(`fwrite` / `write`) reports for a request of `n` bytes at offset
`off`; the source never inspects this value.  `openOk` models
`fopen` / `open` success, `sizeOk` models the `BLKGETSIZE64` ioctl,
`sizeBytes` the size obtained from `ftello` or the ioctl, `removeOk`
the success of `remove`, and `rand` the contents the process-seeded
generator puts into the random buffer. -/
structure Env where
  openOk : Bool
  sizeOk : Bool
  sizeBytes : Nat
  writeResult : Nat → Nat → Nat
  removeOk : Bool
  rand : Nat → Nat

/-- One write request issued by the overwrite loop: issued at byte
offset `off`, asking for `requested` bytes from pattern buffer `buf`;
the primitive reported `reported` bytes written.  The source drops the
reported count on the floor. -/
structure WriteEvent where
  off : Nat
  requested : Nat
  reported : Nat
  buf : PatternBuf
  deriving DecidableEq

/-- The high-speed write loop of `overwrite_pass_simd`
(lines 236-262).  State variable `total_written` starts at 0 (the
target was rewound / seeked to offset 0 just before);
each iteration requests
`to_write = (size - total_written < BUFFER_SIZE) ? size - total_written : BUFFER_SIZE`
bytes and then advances `total_written += to_write` without looking at
the primitive's result.  Returns the list of issued write requests and
the final value of `total_written`. -/
def writeLoop (env : Env) (buffer : PatternBuf) (total_written size : Nat) :
    List WriteEvent × Nat :=
  if _h : total_written < size then
    let to_write := if size - total_written < BUFFER_SIZE then size - total_written
      else BUFFER_SIZE
    let rest := writeLoop env buffer (total_written + to_write) size
    ({ off := total_written, requested := to_write,
       reported := env.writeResult total_written to_write, buf := buffer } :: rest.1,
     rest.2)
  else ([], total_written)
termination_by size - total_written
decreasing_by
  have hB : (0:Nat) < BUFFER_SIZE := by decide
  simp_wf
  split <;> omega

/-- Kind of target handed to `overwrite_pass_simd`: a buffered `FILE*`
(the `f` argument non-null, used by `wipe_file`) or a raw file
descriptor (`f == NULL`, used by `wipe_disk_raw`). -/
inductive Target where
  | file
  | fd
  deriving DecidableEq

/-- Trace of one `overwrite_pass_simd` invocation: the pass/total
numbers and pattern it was called with, the buffer `get_pattern_buffer`
selected, the write requests issued, the final `total_written`, and
whether the final-flush block ran (`fflush` + `fsync`). -/
structure PassTrace where
  passNum : Nat
  totalPasses : Nat
  pat : Nat
  buf : PatternBuf
  writes : List WriteEvent
  finalPos : Nat
  flushed : Bool
  deriving DecidableEq

/-- `overwrite_pass_simd` (lines 207-275).  Looks the pattern buffer
up, seeks the target to offset 0, regenerates the random buffer when
the pattern is `'R'` (its contents are the oracle `env.rand`), runs the
write loop, and finally — only when `f` is non-null (line 265:
`if (f) { fflush(f); fsync(fileno(f)); }`) — flushes.  Progress
printing is ignored.  The C function returns `void`: the trace carries
no error outcome because the source has none. -/
def overwrite_pass_simd (env : Env) (tgt : Target) (size pass_num total_passes : Nat)
    (pat : Nat) : PassTrace :=
  let buffer := get_pattern_buffer pat
  let r := writeLoop env buffer 0 size
  { passNum := pass_num, totalPasses := total_passes, pat := pat, buf := buffer,
    writes := r.1, finalPos := r.2,
    flushed := match tgt with | .file => true | .fd => false }

/-- The pass schedule inlined in `wipe_file`'s method dispatch
(lines 424-442): the ordered list of
`(pattern, pass_num, total_passes)` argument triples of the
`overwrite_pass_simd` calls for each method string, compared with
`strcmp` in source order.  An unrecognized method matches no branch of
the if-chain, so its schedule is empty. -/
def scheduleFor (method : String) : List (Nat × Nat × Nat) :=
  if method = "--clear" then
    [(0x00, 1, 1)]
  else if method = "--purge" then
    [(0x00, 1, 3), (0xFF, 2, 3), (82, 3, 3)]
  else if method = "--destroy-sw" then
    [(0x00, 1, 7), (0xFF, 2, 7), (0x00, 3, 7), (0xAA, 4, 7), (0x55, 5, 7),
     (0xAA, 6, 7), (82, 7, 7)]
  else []

/-- Outcome of `wipe_file`: the overwrite passes it ran in order,
whether `remove` was reached, whether the file was deleted, and the C
return value (0 on success, 1 on error). -/
structure FileOutcome where
  passes : List PassTrace
  removeAttempted : Bool
  deleted : Bool
  exitCode : Nat
  deriving DecidableEq

/-- `wipe_file` (lines 411-452).  Opens the file (`fopen` failure
returns 1 with nothing touched), measures its size, and when
`file_size > 0` runs the method's inlined pass sequence — each pass an
`overwrite_pass_simd` call on the buffered handle.  No pass reports any
outcome (they return `void`), so control always reaches `fclose` and
then `remove(filepath)`: return 0 if the deletion succeeded, 1 if not.
The `is_part_of_folder` flag only selects a banner printf and is
dropped. -/
def wipe_file (env : Env) (method : String) : FileOutcome :=
  if env.openOk then
    let file_size := env.sizeBytes
    let passes :=
      if file_size > 0 then
        (scheduleFor method).map
          (fun a => overwrite_pass_simd env .file file_size a.2.1 a.2.2 a.1)
      else []
    if env.removeOk then
      { passes := passes, removeAttempted := true, deleted := true, exitCode := 0 }
    else
      { passes := passes, removeAttempted := true, deleted := false, exitCode := 1 }
  else
    { passes := [], removeAttempted := false, deleted := false, exitCode := 1 }

/-- Outcome of `wipe_disk_raw`: the passes run against the device and
the C return value. -/
structure DiskOutcome where
  passes : List PassTrace
  exitCode : Nat
  deriving DecidableEq

/-- `wipe_disk_raw`, POSIX branch (lines 387-408).  Opens the device
(`open` failure returns 1), queries its byte length with the
`BLKGETSIZE64` ioctl (failure returns 1), then dispatches on the
method: `--clear` runs one zero pass, `--purge` runs zero / ones /
random, and the `--destroy-sw` branch body is the empty statement
`{ /* Add 7 passes for destroy */ }` — no passes at all.  Any other
method matches no branch.  In every case that reaches the dispatch the
function closes the device and returns 0.  The source spells the pass
routine `overwrite_pass`, a name defined nowhere in the repository; it
is embedded as `overwrite_pass_simd`, the only overwrite routine in the
file, called with `f = NULL` (target `.fd`). -/
def wipe_disk_raw (env : Env) (method : String) : DiskOutcome :=
  if env.openOk then
    if env.sizeOk then
      let disk_size := env.sizeBytes
      let passes :=
        if method = "--clear" then
          [overwrite_pass_simd env .fd disk_size 1 1 0x00]
        else if method = "--purge" then
          [overwrite_pass_simd env .fd disk_size 1 3 0x00,
           overwrite_pass_simd env .fd disk_size 2 3 0xFF,
           overwrite_pass_simd env .fd disk_size 3 3 82]
        else if method = "--destroy-sw" then []
        else []
      { passes := passes, exitCode := 0 }
    else { passes := [], exitCode := 1 }
  else { passes := [], exitCode := 1 }

/-- A directory tree as enumerated by the folder wiper: the entry list
of one directory in `readdir` order (`.` and `..` already excluded),
encoded entry-by-entry.  `fileCons rest` is a regular-file entry
followed by the remaining entries; `dirCons sub rest` is a
subdirectory whose own entry list is `sub`, followed by the remaining
entries. -/
inductive DirTree where
  | nil : DirTree
  | fileCons : DirTree → DirTree
  | dirCons : DirTree → DirTree → DirTree
  deriving DecidableEq

/-- Dispatch/join accounting of `wipe_folder_recursive`, POSIX branch
(lines 345-379).  For each file entry a worker thread is dispatched
(`pthread_create`, `thread_count++`); when `thread_count` reaches
`MAX_THREADS` the whole batch is joined and the counter resets; a
directory entry is handled by a synchronous recursive call — made while
this level's `thread_count` dispatched threads are still unjoined — and
that call joins its own leftover batch before returning, as does this
level after the loop.  `pending` counts the unjoined threads of all
ancestor levels, `tc` the current level's `thread_count`.  A task is
counted as in flight from its dispatch until its join barrier (the only
synchronization the scheduler has).  The result is the largest number
of simultaneously in-flight tasks so observed. -/
def folderMaxInFlight (pending tc : Nat) : DirTree → Nat
  | .nil => pending + tc
  | .fileCons rest =>
      if tc + 1 = MAX_THREADS then
        max (pending + tc + 1) (folderMaxInFlight pending 0 rest)
      else
        max (pending + tc + 1) (folderMaxInFlight pending (tc + 1) rest)
  | .dirCons sub rest =>
      max (folderMaxInFlight (pending + tc) 0 sub) (folderMaxInFlight pending tc rest)

/-- A tree is flat when it contains no subdirectory entry. -/
def flatTree : DirTree → Bool
  | .nil => true
  | .fileCons rest => flatTree rest
  | .dirCons _ _ => false

/-- A flat directory of `n` files. -/
def filesN : Nat → DirTree
  | 0 => .nil
  | n + 1 => .fileCons (filesN n)

/-- A directory holding one file and then a subdirectory of
`MAX_THREADS` files. -/
def deepTree : DirTree := .fileCons (.dirCons (filesN MAX_THREADS) .nil)

/-- Total number of bytes requested by a list of write events. -/
def sumRequested (ws : List WriteEvent) : Nat :=
  ws.foldr (fun e a => e.requested + a) 0

/-- Environment whose write primitive always reports full success. -/
def envOkWrites : Env :=
  { openOk := true, sizeOk := true, sizeBytes := 5,
    writeResult := fun _ n => n, removeOk := true, rand := fun _ => 0 }

/-- Environment whose write primitive always reports 0 bytes written
(every write fails / is maximally short). -/
def envShortWrite : Env :=
  { openOk := true, sizeOk := true, sizeBytes := 5,
    writeResult := fun _ _ => 0, removeOk := true, rand := fun _ => 0 }

/-- Environment for a zero-length file. -/
def envZero : Env :=
  { openOk := true, sizeOk := true, sizeBytes := 0,
    writeResult := fun _ n => n, removeOk := true, rand := fun _ => 0 }

/-- The write loop exits immediately once `total_written` has reached
`size`. -/
theorem writeLoop_stop (env : Env) (buffer : PatternBuf) (total_written size : Nat)
    (h : ¬ total_written < size) :
    writeLoop env buffer total_written size = ([], total_written) := by
  rw [writeLoop]
  simp [h]

/-- One iteration of the write loop: while `total_written < size` it
issues a request of `w = min(BUFFER_SIZE, size - total_written)` bytes
at offset `total_written` and continues at `total_written + w`. -/
theorem writeLoop_step (env : Env) (buffer : PatternBuf) (total_written size w : Nat)
    (h : total_written < size)
    (hw : w = if size - total_written < BUFFER_SIZE then size - total_written
      else BUFFER_SIZE) :
    writeLoop env buffer total_written size =
      ({ off := total_written, requested := w,
         reported := env.writeResult total_written w, buf := buffer }
        :: (writeLoop env buffer (total_written + w) size).1,
       (writeLoop env buffer (total_written + w) size).2) := by
  subst hw
  rw [writeLoop]
  simp [h]

/-- For a target smaller than one buffer the loop issues exactly one
request, of the whole size. -/
theorem writeLoop_single (env : Env) (buffer : PatternBuf) {size : Nat}
    (h0 : 0 < size) (hB : size < BUFFER_SIZE) :
    writeLoop env buffer 0 size =
      ([{ off := 0, requested := size, reported := env.writeResult 0 size,
          buf := buffer }], size) := by
  rw [writeLoop_step env buffer 0 size size h0 (by simp [hB])]
  rw [writeLoop_stop env buffer (0 + size) size (by omega)]
  simp

/-- Full invariant of the write loop, by strong induction on the
remaining byte count: the final `total_written` is `size`; the
requests total `size - total_written` bytes; every request lies inside
`[total_written, size)`, asks for `min(BUFFER_SIZE, size - off)` bytes
from the selected buffer and records the primitive's reply; and every
byte of `[total_written, size)` is covered by exactly one request. -/
theorem writeLoop_spec (env : Env) (buffer : PatternBuf) (d : Nat) :
    ∀ total_written size, size - total_written = d → total_written ≤ size →
      (writeLoop env buffer total_written size).2 = size
      ∧ sumRequested (writeLoop env buffer total_written size).1 = size - total_written
      ∧ (∀ e ∈ (writeLoop env buffer total_written size).1,
          total_written ≤ e.off ∧ 0 < e.requested ∧ e.off + e.requested ≤ size
          ∧ e.requested = min BUFFER_SIZE (size - e.off)
          ∧ e.reported = env.writeResult e.off e.requested ∧ e.buf = buffer)
      ∧ (∀ i, total_written ≤ i → i < size →
          ∃! e, e ∈ (writeLoop env buffer total_written size).1
            ∧ e.off ≤ i ∧ i < e.off + e.requested) := by
  induction d using Nat.strong_induction_on with
  | _ d ih =>
  intro tw size hd hle
  by_cases h : tw < size
  · have hB : (0:Nat) < BUFFER_SIZE := by decide
    set w := if size - tw < BUFFER_SIZE then size - tw else BUFFER_SIZE with hwdef
    have hw1 : 0 < w := by rw [hwdef]; split <;> omega
    have hw2 : tw + w ≤ size := by rw [hwdef]; split <;> omega
    have hwmin : w = min BUFFER_SIZE (size - tw) := by
      rw [hwdef, Nat.min_def]; split <;> split <;> omega
    have hd' : size - (tw + w) < d := by omega
    obtain ⟨ihfin, ihsum, ihmem, ihcov⟩ := ih (size - (tw + w)) hd' (tw + w) size rfl hw2
    rw [writeLoop_step env buffer tw size w h hwdef]
    refine ⟨ihfin, ?_, ?_, ?_⟩
    · show w + sumRequested (writeLoop env buffer (tw + w) size).1 = size - tw
      rw [ihsum]; omega
    · intro e he
      rcases List.mem_cons.mp he with rfl | he'
      · exact ⟨Nat.le_refl _, hw1, hw2, hwmin, rfl, rfl⟩
      · obtain ⟨h1, h2, h3, h4, h5, h6⟩ := ihmem e he'
        exact ⟨by omega, h2, h3, h4, h5, h6⟩
    · intro i hi1 hi2
      by_cases hi : i < tw + w
      · refine ⟨⟨tw, w, env.writeResult tw w, buffer⟩,
          ⟨List.mem_cons_self _ _, hi1, hi⟩, ?_⟩
        rintro e' ⟨he', hlo, hhi⟩
        rcases List.mem_cons.mp he' with rfl | he''
        · rfl
        · have := (ihmem e' he'').1
          omega
      · obtain ⟨e, ⟨hmem, hlo, hhi⟩, huniq⟩ := ihcov i (by omega) hi2
        refine ⟨e, ⟨List.mem_cons_of_mem _ hmem, hlo, hhi⟩, ?_⟩
        rintro e' ⟨he', hlo', hhi'⟩
        rcases List.mem_cons.mp he' with rfl | he''
        · simp only at hlo' hhi'
          omega
        · exact huniq e' ⟨he'', hlo', hhi'⟩
  · have hts : tw = size := by omega
    rw [writeLoop_stop env buffer tw size h]
    refine ⟨hts, by simp [sumRequested, hts], by simp, ?_⟩
    intro i h1 h2
    omega

/-- C2: for every supported method the pass schedule is the fixed,
order-stable sequence with length 1 for CLEAR, 3 for PURGE and 7 for
DESTROY; the entry at 0-based position `k` carries the 1-based pass
index `k + 1` (for every method, the mapped index column is
`1, 2, ..., length`); and the DESTROY pattern column is exactly
ZERO, ONES, ZERO, ALT_AA, ALT_55, ALT_AA, RANDOM
(0x00, 0xFF, 0x00, 0xAA, 0x55, 0xAA, 'R'). -/
theorem scheduleFor_contract :
    scheduleFor "--clear" = [(0x00, 1, 1)]
    ∧ scheduleFor "--purge" = [(0x00, 1, 3), (0xFF, 2, 3), (82, 3, 3)]
    ∧ scheduleFor "--destroy-sw" =
        [(0x00, 1, 7), (0xFF, 2, 7), (0x00, 3, 7), (0xAA, 4, 7), (0x55, 5, 7),
         (0xAA, 6, 7), (82, 7, 7)]
    ∧ (scheduleFor "--clear").length = 1
    ∧ (scheduleFor "--purge").length = 3
    ∧ (scheduleFor "--destroy-sw").length = 7
    ∧ ∀ m : String, (scheduleFor m).map (fun a => a.2.1) =
        List.range' 1 (scheduleFor m).length := by
  refine ⟨rfl, rfl, rfl, rfl, rfl, rfl, ?_⟩
  intro m
  by_cases h1 : m = "--clear"
  · subst h1; rfl
  by_cases h2 : m = "--purge"
  · subst h2; rfl
  by_cases h3 : m = "--destroy-sw"
  · subst h3; rfl
  simp [scheduleFor, h1, h2, h3]

/-- C3: a run of the overwrite pass whose write primitive reports full
success starts at offset 0 and requests exactly `size` bytes in total,
each request being `min(BUFFER_SIZE, size - written)` bytes, so no
chunk exceeds the configured chunk size; every byte offset in
`[0, size)` is covered by exactly one request; the final offset after
the run equals `size`; and `size = 0` issues no writes at all. -/
theorem overwrite_pass_simd_covers (env : Env) (tgt : Target)
    (size pn tn pat : Nat) (hw : ∀ off n, env.writeResult off n = n) :
    sumRequested (overwrite_pass_simd env tgt size pn tn pat).writes = size
    ∧ (overwrite_pass_simd env tgt size pn tn pat).finalPos = size
    ∧ (∀ e ∈ (overwrite_pass_simd env tgt size pn tn pat).writes,
        e.requested ≤ BUFFER_SIZE ∧ e.requested = min BUFFER_SIZE (size - e.off)
        ∧ e.off + e.requested ≤ size ∧ e.reported = e.requested)
    ∧ (0 < size → ∃ e ∈ (overwrite_pass_simd env tgt size pn tn pat).writes,
        e.off = 0)
    ∧ (∀ i, i < size →
        ∃! e, e ∈ (overwrite_pass_simd env tgt size pn tn pat).writes
          ∧ e.off ≤ i ∧ i < e.off + e.requested)
    ∧ (size = 0 → (overwrite_pass_simd env tgt size pn tn pat).writes = []) := by
  obtain ⟨hfin, hsum, hmem, hcov⟩ :=
    writeLoop_spec env (get_pattern_buffer pat) size 0 size (by omega) (Nat.zero_le _)
  refine ⟨hsum.trans (by omega), hfin, ?_, ?_, ?_, ?_⟩
  · intro e he
    obtain ⟨h1, h2, h3, h4, h5, h6⟩ := hmem e he
    refine ⟨by rw [h4]; exact Nat.min_le_left _ _, h4, h3, h5.trans (hw _ _)⟩
  · intro hpos
    obtain ⟨e, ⟨hm, hlo, hhi⟩, hu⟩ := hcov 0 (Nat.zero_le _) hpos
    exact ⟨e, hm, Nat.le_zero.mp hlo⟩
  · intro i hi
    exact hcov i (Nat.zero_le _) hi
  · intro h0
    subst h0
    show (writeLoop env (get_pattern_buffer pat) 0 0).1 = []
    rw [writeLoop_stop env (get_pattern_buffer pat) 0 0 (by omega)]

/-- Witness for C3 at a concrete 5-byte target with a fully
succeeding write primitive. -/
theorem overwrite_pass_simd_covers_witness :
    sumRequested (overwrite_pass_simd envOkWrites .file 5 1 1 0).writes = 5
    ∧ (overwrite_pass_simd envOkWrites .file 5 1 1 0).finalPos = 5
    ∧ (∀ e ∈ (overwrite_pass_simd envOkWrites .file 5 1 1 0).writes,
        e.requested ≤ BUFFER_SIZE ∧ e.requested = min BUFFER_SIZE (5 - e.off)
        ∧ e.off + e.requested ≤ 5 ∧ e.reported = e.requested)
    ∧ (0 < 5 → ∃ e ∈ (overwrite_pass_simd envOkWrites .file 5 1 1 0).writes,
        e.off = 0)
    ∧ (∀ i, i < 5 →
        ∃! e, e ∈ (overwrite_pass_simd envOkWrites .file 5 1 1 0).writes
          ∧ e.off ≤ i ∧ i < e.off + e.requested)
    ∧ (5 = 0 → (overwrite_pass_simd envOkWrites .file 5 1 1 0).writes = []) :=
  overwrite_pass_simd_covers envOkWrites .file 5 1 1 0 (fun _ _ => rfl)

/-- C7 (amended): the final durability flush (`fflush` then `fsync`)
runs exactly when the target is a buffered FILE handle; a pass on a raw
device descriptor returns without any flush. -/
theorem overwrite_pass_simd_flush_iff_file (env : Env) (tgt : Target)
    (size pn tn pat : Nat) :
    (overwrite_pass_simd env tgt size pn tn pat).flushed = true ↔ tgt = Target.file := by
  cases tgt <;> simp [overwrite_pass_simd]

/-- C7 counterexample: an overwrite pass on a raw device descriptor
(the target kind `wipe_disk_raw` uses) performs no durability flush,
refuting the claim that every pass on every target kind flushes. -/
theorem overwrite_pass_simd_fd_no_flush :
    (overwrite_pass_simd envOkWrites .fd 5 1 1 0x00).flushed = false := rfl

/-- C9: a file whose size at open time is zero gets zero overwrite
passes; the operation proceeds directly to deletion and returns
success when the deletion succeeds. -/
theorem wipe_file_zero_size (env : Env) (method : String)
    (h1 : env.openOk = true) (h2 : env.sizeBytes = 0) (h3 : env.removeOk = true) :
    (wipe_file env method).passes = []
    ∧ (wipe_file env method).deleted = true
    ∧ (wipe_file env method).exitCode = 0 := by
  simp [wipe_file, h1, h2, h3]

/-- Witness for C9 at a concrete zero-length file. -/
theorem wipe_file_zero_size_witness :
    (wipe_file envZero "--purge").passes = []
    ∧ (wipe_file envZero "--purge").deleted = true
    ∧ (wipe_file envZero "--purge").exitCode = 0 :=
  wipe_file_zero_size envZero "--purge" rfl rfl rfl

/-- C10: any pattern identifier outside {0x00, 0xFF, 0xAA, 0x55, 'R'}
falls through the switch's `default:` arm to the all-zero buffer — the
lookup neither fails nor returns null — so a pass invoked with an
unknown pattern draws every written byte from the zero buffer. -/
theorem get_pattern_buffer_unknown_zero (p : Nat) (h0 : p ≠ 0x00) (h1 : p ≠ 0xFF)
    (h2 : p ≠ 0xAA) (h3 : p ≠ 0x55) (h4 : p ≠ 82) :
    get_pattern_buffer p = PatternBuf.zero
    ∧ (∀ (r : Nat → Nat) (i : Nat), bufferByte r (get_pattern_buffer p) i = 0)
    ∧ (∀ env tgt size pn tn, ∀ e ∈ (overwrite_pass_simd env tgt size pn tn p).writes,
        e.buf = PatternBuf.zero) := by
  have hb : get_pattern_buffer p = PatternBuf.zero := by
    simp [get_pattern_buffer, h0, h1, h2, h3, h4]
  refine ⟨hb, fun r i => by rw [hb]; rfl, ?_⟩
  intro env tgt size pn tn e he
  have hmem := (writeLoop_spec env (get_pattern_buffer p) size 0 size (by omega)
    (Nat.zero_le _)).2.2.1
  have hbuf : e.buf = get_pattern_buffer p := (hmem e he).2.2.2.2.2
  rw [hbuf, hb]

/-- Witness for C10 at the concrete unknown pattern byte 66 ('B'). -/
theorem get_pattern_buffer_unknown_zero_witness :
    get_pattern_buffer 66 = PatternBuf.zero
    ∧ (∀ (r : Nat → Nat) (i : Nat), bufferByte r (get_pattern_buffer 66) i = 0)
    ∧ (∀ env tgt size pn tn, ∀ e ∈ (overwrite_pass_simd env tgt size pn tn 66).writes,
        e.buf = PatternBuf.zero) :=
  get_pattern_buffer_unknown_zero 66 (by decide) (by decide) (by decide) (by decide)
    (by decide)

/-- C1 fails on the code (code bug): with every underlying write
failing — the primitive reports 0 bytes written for each request — the
CLEAR wipe of a 5-byte file still reaches `remove`, deletes the file
and returns success.  The pass has no error channel (`void` return,
write results discarded), so a failing pass can neither abort the
operation nor keep the file undeleted, contradicting the claim that
the file is deleted only after every pass has completed successfully.
The outcome record reads: one CLEAR pass (pass 1 of 1, pattern 0x00,
zero buffer) that issued a single 5-byte request whose reported count
is 0, final position 5, flushed; remove attempted, file deleted, exit
code 0. -/
theorem wipe_file_deletes_after_failed_writes :
    wipe_file envShortWrite "--clear" =
      ⟨[⟨1, 1, 0x00, PatternBuf.zero, [⟨0, 5, 0, PatternBuf.zero⟩], 5, true⟩],
        true, true, 0⟩ := by
  simp [wipe_file, envShortWrite, scheduleFor, overwrite_pass_simd,
    get_pattern_buffer, writeLoop_single, BUFFER_SIZE]

/-- C4 fails on the code (code bug): when the write primitive reports
0 of the 5 requested bytes written (a short write), the pass issues no
further write for the remainder — the trace holds exactly the one
original request — and still advances `total_written` to 5, finishing
as if everything had been written; no `IoError` exists to surface. -/
theorem overwrite_pass_simd_ignores_short_write :
    (overwrite_pass_simd envShortWrite .file 5 1 1 0x00).writes =
      [{ off := 0, requested := 5, reported := 0, buf := PatternBuf.zero }]
    ∧ (overwrite_pass_simd envShortWrite .file 5 1 1 0x00).finalPos = 5 := by
  simp [overwrite_pass_simd, envShortWrite, get_pattern_buffer, writeLoop_single,
    BUFFER_SIZE]

/-- C5 fails on the code (code bug): the unrecognized method
`"--turbo"` (which the program's own usage text advertises) matches no
branch of the dispatch, so a 5-byte file receives zero overwrite
passes, is deleted anyway, and the operation returns exit code 0 — not
an `UnsupportedMethod` failure. -/
theorem wipe_file_unknown_method_deletes :
    (wipe_file envOkWrites "--turbo").passes = []
    ∧ (wipe_file envOkWrites "--turbo").deleted = true
    ∧ (wipe_file envOkWrites "--turbo").exitCode = 0 := by
  simp [wipe_file, envOkWrites, scheduleFor]

/-- C8 fails on the code (code bug): on a raw device `wipe_disk_raw`
runs zero passes for `--destroy-sw` — the branch body is an empty
comment — yet still returns success, instead of the 7-pass DESTROY
schedule the file path runs. -/
theorem wipe_disk_raw_destroy_no_passes :
    (wipe_disk_raw envOkWrites "--destroy-sw").passes = []
    ∧ (wipe_disk_raw envOkWrites "--destroy-sw").exitCode = 0 := by
  simp [wipe_disk_raw, envOkWrites]

/-- Auxiliary for C6: over a flat directory (no subdirectory entries)
the dispatch/join accounting never exceeds `MAX_THREADS`, starting from
no pending ancestors and fewer than `MAX_THREADS` already-dispatched
tasks at this level. -/
theorem folderMaxInFlight_flat_aux (t : DirTree) :
    flatTree t = true → ∀ tc, tc < MAX_THREADS →
      folderMaxInFlight 0 tc t ≤ MAX_THREADS := by
  have hM : MAX_THREADS = 64 := rfl
  induction t with
  | nil =>
    intro _ tc htc
    simp only [folderMaxInFlight]
    omega
  | fileCons rest ih =>
    intro h tc htc
    simp only [folderMaxInFlight]
    by_cases h64 : tc + 1 = MAX_THREADS
    · rw [if_pos h64]
      exact max_le (by omega) (ih h 0 (by omega))
    · rw [if_neg h64]
      exact max_le (by omega) (ih h (tc + 1) (by omega))
  | dirCons sub rest ih1 ih2 =>
    intro h
    simp [flatTree] at h

/-- C6 (amended): within a single directory level the scheduler does
keep at most `MAX_THREADS` (64) tasks in flight — it joins the whole
batch after the 64th dispatch before dispatching further at that level
— so for a flat directory tree the global bound holds; but because the
scheduler recurses into a subdirectory while the current level's
unjoined tasks stay in flight, the bound is per level only, and nested
trees can exceed 64 tasks in flight overall. -/
theorem folderMaxInFlight_flat_bound (t : DirTree) (h : flatTree t = true) :
    folderMaxInFlight 0 0 t ≤ MAX_THREADS :=
  folderMaxInFlight_flat_aux t h 0 (by decide)

/-- Witness for the amended C6 at a concrete flat directory of 3
files. -/
theorem folderMaxInFlight_flat_bound_witness :
    flatTree (filesN 3) = true ∧ folderMaxInFlight 0 0 (filesN 3) ≤ MAX_THREADS :=
  ⟨by decide, folderMaxInFlight_flat_bound (filesN 3) (by decide)⟩

set_option maxRecDepth 8000 in
/-- C6 counterexample: in a directory holding one file followed by a
subdirectory of 64 files, the scheduler dispatches the subdirectory's
whole batch while the parent's task is still unjoined, reaching 65
simultaneously in-flight tasks — more than `MAX_CONCURRENCY` (64) —
refuting the claimed global bound and the claim that no further task
is dispatched before the current batch is joined. -/
theorem folderMaxInFlight_exceeds_bound :
    MAX_THREADS < folderMaxInFlight 0 0 deepTree := by decide
